import Mathlib

/-!
Verification of `scripts/scale-font.py` (font scaling tool).

The Python script scales glyph outlines, metrics, kerning and positioning
data of a parsed font by a scale factor.  Every numeric conversion in the
script is `int(value * scale_factor)`, i.e. multiplication followed by
truncation toward zero.  We embed the data model (glyphs, metric tables,
header tables, the GPOS tree, name records) and the scaling functions, and
prove or refute the claims of the specification about them.

Scale factors are modelled as exact rationals; the arithmetic the script
performs on font values (small integers) is exact in double-precision
floating point for the magnitudes involved, so the rational model is
faithful.  For a rational `s` in lowest terms and an integer `x`, the value
`x * s` equals `(x * s.num) / s.den` exactly, and Python `int()` truncation
toward zero on that quotient is integer T-division (`Int.tdiv`).
-/

namespace ScaleFont

/-- Model of `int(x * scale_factor)` — the single numeric conversion used throughout
the script (`scale_glyph_ttf`, `scale_font`, `scale_value_record`,
`scale_anchor`): multiply by the factor, truncate toward zero. -/
def scaleInt (s : ℚ) (x : ℤ) : ℤ := (x * s.num).tdiv s.den

/-- Round half away from zero — one of the two rounding rules the
specification demands; stated from the words of the spec for comparison
with the code, which truncates. -/
def roundHalfAwayFromZero (q : ℚ) : ℤ :=
  if 0 ≤ q then ⌊q + 1/2⌋ else ⌈q - 1/2⌉

/-- Round half to even — the other rounding rule the specification offers;
stated from the words of the spec for comparison with the code. -/
def roundHalfToEven (q : ℚ) : ℤ :=
  if q - ⌊q⌋ < 1/2 then ⌊q⌋
  else if 1/2 < q - ⌊q⌋ then ⌊q⌋ + 1
  else if Even ⌊q⌋ then ⌊q⌋ else ⌊q⌋ + 1

/-! ## TrueType glyph model (`scale_glyph_ttf`) -/

/-- A composite-glyph component reference; the `x`/`y` offsets are optional,
mirroring the `hasattr(component, ...)` guards of the script. -/
structure Component where
  x : Option ℤ
  y : Option ℤ
deriving DecidableEq

/-- Glyph bounding box (`xMin`/`yMin`/`xMax`/`yMax`). -/
structure BBox where
  xMin : ℤ
  yMin : ℤ
  xMax : ℤ
  yMax : ℤ
deriving DecidableEq

/-- A TrueType glyph: `numberOfContours` is `-1` for composites, `0` for
empty glyphs, positive for simple outlines.  `bbox = none` models
a false `hasattr` test on the glyph bounding-box attributes. -/
structure TTGlyph where
  numberOfContours : ℤ
  coordinates : List (ℤ × ℤ)
  components : List Component
  bbox : Option BBox
deriving DecidableEq

/-- The fontTools test `glyph.isComposite()` checks `numberOfContours == -1`. -/
def TTGlyph.isComposite (g : TTGlyph) : Bool := g.numberOfContours = -1

/-- Scaling of one component reference (lines 42–46 of the script). -/
def scaleComponent (s : ℚ) (c : Component) : Component :=
  { x := c.x.map (scaleInt s), y := c.y.map (scaleInt s) }

/-- Scaling of the stored bounding-box fields (lines 55–58). -/
def scaleBBox (s : ℚ) (b : BBox) : BBox :=
  { xMin := scaleInt s b.xMin, yMin := scaleInt s b.yMin
    xMax := scaleInt s b.xMax, yMax := scaleInt s b.yMax }

/-- Model of `scale_glyph_ttf(glyph, glyf_table, scale_factor)`.  The `glyf_table`
argument of the Python function is never used by its body, so it has no
counterpart here. -/
def scale_glyph_ttf (g : TTGlyph) (s : ℚ) : TTGlyph :=
  let g1 :=
    if g.isComposite then
      { g with components := g.components.map (scaleComponent s) }
    else if 0 < g.numberOfContours then
      { g with coordinates :=
          g.coordinates.map (fun p => (scaleInt s p.1, scaleInt s p.2)) }
    else g
  if g1.bbox.isSome ∧ g1.numberOfContours ≠ 0 then
    { g1 with bbox := g1.bbox.map (scaleBBox s) }
  else g1

/-! Definitions stated from the words of the spec (§4.1), used only to
compare the claimed behaviour with the behaviour of the code: the bounds a
recomputation from a scaled coordinate set would produce. -/

/-- The maximal x value of a point set (the `xMax` a recomputation would
yield); stated from the spec, not from the code. -/
def spec_xMaxOfPoints (pts : List (ℤ × ℤ)) : Option ℤ :=
  pts.foldr
    (fun p acc =>
      match acc with
      | none => some p.1
      | some m => some (max p.1 m))
    none

/-- The rendered points of one composite component: the points of the
referenced glyph translated by the component offset; stated from the spec
(bounds "assembled from scaled sub-components"), not from the code. -/
def spec_componentPoints (base : List (ℤ × ℤ)) (off : ℤ × ℤ) : List (ℤ × ℤ) :=
  base.map (fun p => (p.1 + off.1, p.2 + off.2))

/-! ## CFF outline model (`scale_cff_glyphs`)

A charstring is modelled by the point sequence of the path it draws; the
`TransformPen` with matrix `(s, 0, 0, s, 0, 0)` maps each point `(x, y)` to
`(s*x, s*y)`.  The CFF-specific name fields touched by `rename_font` are
also carried here. -/

structure CFFTable where
  charStrings : List (String × List (ℚ × ℚ))
  fontNames : List (List Char)
  FamilyName : Option (List Char)
  FullName : Option (List Char)
deriving DecidableEq

/-- Model of `scale_cff_glyphs`: replay every charstring through a scale-only
transform. -/
def scale_cff_glyphs (s : ℚ) (t : CFFTable) : CFFTable :=
  { t with charStrings :=
      t.charStrings.map (fun e => (e.1, e.2.map (fun p => (s * p.1, s * p.2)))) }

/-! ## GPOS model (`scale_gpos_values` / `scale_gpos_subtable`) -/

/-- A GPOS ValueRecord; `none` models an absent attribute or a `None`
value (both skipped by the script). -/
structure ValueRecord where
  XPlacement : Option ℤ
  YPlacement : Option ℤ
  XAdvance : Option ℤ
  YAdvance : Option ℤ
deriving DecidableEq

/-- A GPOS Anchor. -/
structure Anchor where
  XCoordinate : Option ℤ
  YCoordinate : Option ℤ
deriving DecidableEq

structure PairValueRecord where
  Value1 : Option ValueRecord
  Value2 : Option ValueRecord
deriving DecidableEq

structure PairSet where
  PairValueRecord : List PairValueRecord
deriving DecidableEq

structure Class2Record where
  Value1 : Option ValueRecord
  Value2 : Option ValueRecord
deriving DecidableEq

structure Class1Record where
  Class2Record : List Class2Record
deriving DecidableEq

structure BaseRecord where
  BaseAnchor : List (Option Anchor)
deriving DecidableEq

structure BaseArray where
  BaseRecord : List BaseRecord
deriving DecidableEq

structure MarkRecord where
  MarkAnchor : Option Anchor
deriving DecidableEq

structure MarkArray where
  MarkRecord : List MarkRecord
deriving DecidableEq

structure Mark2Record where
  Mark2Anchor : List (Option Anchor)
deriving DecidableEq

structure Mark2Array where
  Mark2Record : List Mark2Record
deriving DecidableEq

structure ComponentRecord where
  LigatureAnchor : List (Option Anchor)
deriving DecidableEq

structure LigatureAttach where
  ComponentRecord : List ComponentRecord
deriving DecidableEq

structure LigatureArray where
  LigatureAttach : List LigatureAttach
deriving DecidableEq

/-- A GPOS subtable; each attribute is optional, mirroring the
`hasattr(subtable, ...)` guards. -/
structure GposSubtable where
  SinglePos : Option (List ValueRecord)
  PairSet : Option (List (Option PairSet))
  Class1Record : Option (List Class1Record)
  BaseArray : Option BaseArray
  MarkArray : Option MarkArray
  Mark2Array : Option Mark2Array
  LigatureArray : Option LigatureArray
deriving DecidableEq

structure GposLookup where
  SubTable : List GposSubtable
deriving DecidableEq

structure LookupListTable where
  Lookup : List GposLookup
deriving DecidableEq

structure GPOSTable where
  LookupList : Option LookupListTable
deriving DecidableEq

/-- One field of `scale_value_record`: absent (`none`) or zero values are
skipped (Python truthiness), others multiplied and truncated. -/
def scaleOptValue (s : ℚ) : Option ℤ → Option ℤ
  | none => none
  | some v => if v = 0 then some 0 else some (scaleInt s v)

/-- Model of `scale_value_record(value_record, scale_factor)`. -/
def scale_value_record (s : ℚ) (v : ValueRecord) : ValueRecord :=
  { XPlacement := scaleOptValue s v.XPlacement
    YPlacement := scaleOptValue s v.YPlacement
    XAdvance := scaleOptValue s v.XAdvance
    YAdvance := scaleOptValue s v.YAdvance }

/-- Model of `scale_anchor(anchor, scale_factor)`: both coordinate fields are
scaled whenever present (no truthiness test here, unlike value records). -/
def scale_anchor (s : ℚ) (a : Anchor) : Anchor :=
  { XCoordinate := a.XCoordinate.map (scaleInt s)
    YCoordinate := a.YCoordinate.map (scaleInt s) }

def scalePairValue (s : ℚ) (pv : PairValueRecord) : PairValueRecord :=
  { Value1 := match pv.Value1 with
      | none => none
      | some v => some (scale_value_record s v)
    Value2 := match pv.Value2 with
      | none => none
      | some v => some (scale_value_record s v) }

def scalePairSet (s : ℚ) (ps : PairSet) : PairSet :=
  { PairValueRecord := ps.PairValueRecord.map (scalePairValue s) }

def scaleClass2Record (s : ℚ) (c : Class2Record) : Class2Record :=
  { Value1 := match c.Value1 with
      | none => none
      | some v => some (scale_value_record s v)
    Value2 := match c.Value2 with
      | none => none
      | some v => some (scale_value_record s v) }

def scaleClass1Record (s : ℚ) (c : Class1Record) : Class1Record :=
  { Class2Record := c.Class2Record.map (scaleClass2Record s) }

def scaleOptAnchor (s : ℚ) : Option Anchor → Option Anchor
  | none => none
  | some a => some (scale_anchor s a)

def scaleBaseRecord (s : ℚ) (r : BaseRecord) : BaseRecord :=
  { BaseAnchor := r.BaseAnchor.map (scaleOptAnchor s) }

def scaleBaseArray (s : ℚ) (b : BaseArray) : BaseArray :=
  { BaseRecord := b.BaseRecord.map (scaleBaseRecord s) }

def scaleMarkRecord (s : ℚ) (r : MarkRecord) : MarkRecord :=
  { MarkAnchor := scaleOptAnchor s r.MarkAnchor }

def scaleMarkArray (s : ℚ) (m : MarkArray) : MarkArray :=
  { MarkRecord := m.MarkRecord.map (scaleMarkRecord s) }

def scaleMark2Record (s : ℚ) (r : Mark2Record) : Mark2Record :=
  { Mark2Anchor := r.Mark2Anchor.map (scaleOptAnchor s) }

def scaleMark2Array (s : ℚ) (m : Mark2Array) : Mark2Array :=
  { Mark2Record := m.Mark2Record.map (scaleMark2Record s) }

def scaleComponentRecord (s : ℚ) (c : ComponentRecord) : ComponentRecord :=
  { LigatureAnchor := c.LigatureAnchor.map (scaleOptAnchor s) }

def scaleLigatureAttach (s : ℚ) (l : LigatureAttach) : LigatureAttach :=
  { ComponentRecord := l.ComponentRecord.map (scaleComponentRecord s) }

def scaleLigatureArray (s : ℚ) (l : LigatureArray) : LigatureArray :=
  { LigatureAttach := l.LigatureAttach.map (scaleLigatureAttach s) }

/-- One pair-set slot: a `None` entry (`if pair_set:` false) is skipped
and stays `None`. -/
def scaleOptPairSet (s : ℚ) : Option PairSet → Option PairSet
  | none => none
  | some ps => some (scalePairSet s ps)

/-- Model of `scale_gpos_subtable(subtable, scale_factor)`: each optional attribute
is visited independently; `None` entries inside pair-set and anchor slots
are skipped. -/
def scale_gpos_subtable (s : ℚ) (st : GposSubtable) : GposSubtable :=
  { SinglePos := st.SinglePos.map (List.map (scale_value_record s))
    PairSet := st.PairSet.map (List.map (scaleOptPairSet s))
    Class1Record := st.Class1Record.map (List.map (scaleClass1Record s))
    BaseArray := st.BaseArray.map (scaleBaseArray s)
    MarkArray := st.MarkArray.map (scaleMarkArray s)
    Mark2Array := st.Mark2Array.map (scaleMark2Array s)
    LigatureArray := st.LigatureArray.map (scaleLigatureArray s) }

/-- Model of `scale_gpos_values(gpos_table, scale_factor)`: returns immediately when
the lookup list is absent. -/
def scale_gpos_values (s : ℚ) (g : GPOSTable) : GPOSTable :=
  match g.LookupList with
  | none => g
  | some ll =>
    { LookupList := some
        { Lookup := ll.Lookup.map (fun lk =>
            { SubTable := lk.SubTable.map (scale_gpos_subtable s) }) } }

/-! ## Name table model (`rename_font`) -/

/-- Test whether `pat` is a leading segment of the subject. -/
def beginsWith : List Char → List Char → Bool
  | [], _ => true
  | _ :: _, [] => false
  | p :: ps, c :: cs => p == c && beginsWith ps cs

/-- Python substring test `pat in text`. -/
def containsSeq (pat : List Char) : List Char → Bool
  | [] => pat.isEmpty
  | c :: cs => beginsWith pat (c :: cs) || containsSeq pat cs

/-- Worker for `replaceAll`; the counter holds how many characters of a
matched occurrence remain to be consumed without re-scanning. -/
def replaceGo (pat rep : List Char) : ℕ → List Char → List Char
  | _, [] => []
  | Nat.succ k, _ :: cs => replaceGo pat rep k cs
  | 0, c :: cs =>
    if !pat.isEmpty && beginsWith pat (c :: cs) then
      rep ++ replaceGo pat rep (pat.length - 1) cs
    else
      c :: replaceGo pat rep 0 cs

/-- Python `text.replace(pat, rep)` for a nonempty pattern: replace every
occurrence, scanning left to right without overlap.  (For the empty
pattern Python would insert `rep` at every position; the script only ever
replaces family names, which are nonempty, so the model leaves the subject
unchanged there.) -/
def replaceAll (pat rep subject : List Char) : List Char :=
  replaceGo pat rep 0 subject

/-- The text produced for one decoded naming record by the two replacement
branches of `rename_font` (lines 319–341): spaced replacement when the old
family name occurs; otherwise space-stripped replacement when only the
space-stripped form occurs. -/
def renamedText (old new t : List Char) : List Char :=
  if containsSeq old t then replaceAll old new t
  else if containsSeq (replaceAll [' '] [] old) t then
    replaceAll (replaceAll [' '] [] old) (replaceAll [' '] [] new) t
  else t

/-- One record of the `name` table; `rawText = none` models a record whose
`toUnicode()` raises (undecodable), which the script skips. -/
structure NameRecord where
  nameID : ℕ
  platformID : ℕ
  platEncID : ℕ
  langID : ℕ
  rawText : Option (List Char)
deriving DecidableEq

/-- Effect of the `rename_font` loop on one naming record: undecodable
records are left untouched; otherwise the text is rewritten through
`setName` with the same identifiers. -/
def renameRecord (old new : List Char) (r : NameRecord) : NameRecord :=
  match r.rawText with
  | none => r
  | some t => { r with rawText := some (renamedText old new t) }

/-- The CFF-specific half of `rename_font` (lines 344–360). -/
def renameCFF (old new : List Char) (t : CFFTable) : CFFTable :=
  let oldNS := replaceAll [' '] [] old
  let newNS := replaceAll [' '] [] new
  { t with
    fontNames := t.fontNames.map (fun nm =>
      if containsSeq oldNS nm then replaceAll oldNS newNS nm else nm)
    FamilyName := t.FamilyName.map (fun fn =>
      if containsSeq old fn then replaceAll old new fn else fn)
    FullName := t.FullName.map (fun fn =>
      if containsSeq old fn then replaceAll old new fn else fn) }

/-! ## Whole-font model (`scale_font`) -/

structure HeadTable where
  xMin : ℤ
  yMin : ℤ
  xMax : ℤ
  yMax : ℤ
deriving DecidableEq

structure HheaTable where
  ascent : ℤ
  descent : ℤ
  lineGap : ℤ
  advanceWidthMax : ℤ
  minLeftSideBearing : ℤ
  minRightSideBearing : ℤ
  xMaxExtent : ℤ
deriving DecidableEq

structure OS2Table where
  sTypoAscender : ℤ
  sTypoDescender : ℤ
  sTypoLineGap : ℤ
  usWinAscent : ℤ
  usWinDescent : ℤ
  ySubscriptXSize : ℤ
  ySubscriptYSize : ℤ
  ySubscriptXOffset : ℤ
  ySubscriptYOffset : ℤ
  ySuperscriptXSize : ℤ
  ySuperscriptYSize : ℤ
  ySuperscriptXOffset : ℤ
  ySuperscriptYOffset : ℤ
  yStrikeoutSize : ℤ
  yStrikeoutPosition : ℤ
  sxHeight : ℤ
  sCapHeight : ℤ
  xAvgCharWidth : ℤ
deriving DecidableEq

structure VheaTable where
  ascent : ℤ
  descent : ℤ
  lineGap : ℤ
  advanceHeightMax : ℤ
  minTopSideBearing : ℤ
  minBottomSideBearing : ℤ
  yMaxExtent : ℤ
deriving DecidableEq

structure PostTable where
  underlinePosition : ℤ
  underlineThickness : ℤ
deriving DecidableEq

/-- One legacy `kern` subtable: `none` models a subtable without a
`kernTable` attribute (skipped); otherwise glyph-pair to value entries. -/
abbrev KernSubtable : Type := Option (List ((String × String) × ℤ))

/-- The in-memory font: `none` on a table models its absence from the
font file (the membership tests such as `vmtx in font`). -/
structure FontModel where
  cff : Option CFFTable
  glyf : Option (List (String × TTGlyph))
  hmtx : List (String × ℤ × ℤ)
  vmtx : Option (List (String × ℤ × ℤ))
  head : HeadTable
  hhea : HheaTable
  os2 : Option OS2Table
  vhea : Option VheaTable
  post : Option PostTable
  kern : Option (List KernSubtable)
  gpos : Option GPOSTable
  name : Option (List NameRecord)
deriving DecidableEq

/-- Model of `rename_font(font, old_family, new_family)`: rewrites the naming table
(absent table: early return) and the CFF name fields. -/
def rename_font (f : FontModel) (old new : List Char) : FontModel :=
  let f1 := match f.name with
    | none => f
    | some recs => { f with name := some (recs.map (renameRecord old new)) }
  { f1 with cff := f1.cff.map (renameCFF old new) }

/-- Errors the pipeline can raise; loading a missing `glyf` table raises a
`KeyError` in fontTools. -/
inductive ScaleError where
  | missingGlyfTable
deriving DecidableEq

/-- Lines 109–118: CFF fonts go through the charstring scaler; otherwise
the `glyf` table is accessed unconditionally, which raises when it is
absent.  Non-empty glyphs are scaled (`numberOfContours != 0`). -/
def scaleOutlines (s : ℚ) (f : FontModel) : Except ScaleError FontModel :=
  match f.cff with
  | some t => Except.ok { f with cff := some (scale_cff_glyphs s t) }
  | none =>
    match f.glyf with
    | none => Except.error ScaleError.missingGlyfTable
    | some gs => Except.ok
        { f with glyf := some (gs.map (fun e =>
            (e.1, if e.2.numberOfContours ≠ 0 then scale_glyph_ttf e.2 s else e.2))) }

/-- Per-glyph metric scaling (lines 120–131), identical for `hmtx` and
`vmtx`: both tuple fields are multiplied and truncated. -/
def scaleMetricsList (s : ℚ) (l : List (String × ℤ × ℤ)) : List (String × ℤ × ℤ) :=
  l.map (fun e => (e.1, scaleInt s e.2.1, scaleInt s e.2.2))

def scaleHead (s : ℚ) (h : HeadTable) : HeadTable :=
  { xMin := scaleInt s h.xMin, yMin := scaleInt s h.yMin
    xMax := scaleInt s h.xMax, yMax := scaleInt s h.yMax }

def scaleHhea (s : ℚ) (h : HheaTable) : HheaTable :=
  { ascent := scaleInt s h.ascent
    descent := scaleInt s h.descent
    lineGap := scaleInt s h.lineGap
    advanceWidthMax := scaleInt s h.advanceWidthMax
    minLeftSideBearing := scaleInt s h.minLeftSideBearing
    minRightSideBearing := scaleInt s h.minRightSideBearing
    xMaxExtent := scaleInt s h.xMaxExtent }

def scaleOS2 (s : ℚ) (t : OS2Table) : OS2Table :=
  { sTypoAscender := scaleInt s t.sTypoAscender
    sTypoDescender := scaleInt s t.sTypoDescender
    sTypoLineGap := scaleInt s t.sTypoLineGap
    usWinAscent := scaleInt s t.usWinAscent
    usWinDescent := scaleInt s t.usWinDescent
    ySubscriptXSize := scaleInt s t.ySubscriptXSize
    ySubscriptYSize := scaleInt s t.ySubscriptYSize
    ySubscriptXOffset := scaleInt s t.ySubscriptXOffset
    ySubscriptYOffset := scaleInt s t.ySubscriptYOffset
    ySuperscriptXSize := scaleInt s t.ySuperscriptXSize
    ySuperscriptYSize := scaleInt s t.ySuperscriptYSize
    ySuperscriptXOffset := scaleInt s t.ySuperscriptXOffset
    ySuperscriptYOffset := scaleInt s t.ySuperscriptYOffset
    yStrikeoutSize := scaleInt s t.yStrikeoutSize
    yStrikeoutPosition := scaleInt s t.yStrikeoutPosition
    sxHeight := scaleInt s t.sxHeight
    sCapHeight := scaleInt s t.sCapHeight
    xAvgCharWidth := scaleInt s t.xAvgCharWidth }

def scaleVhea (s : ℚ) (t : VheaTable) : VheaTable :=
  { ascent := scaleInt s t.ascent
    descent := scaleInt s t.descent
    lineGap := scaleInt s t.lineGap
    advanceHeightMax := scaleInt s t.advanceHeightMax
    minTopSideBearing := scaleInt s t.minTopSideBearing
    minBottomSideBearing := scaleInt s t.minBottomSideBearing
    yMaxExtent := scaleInt s t.yMaxExtent }

def scalePost (s : ℚ) (t : PostTable) : PostTable :=
  { underlinePosition := scaleInt s t.underlinePosition
    underlineThickness := scaleInt s t.underlineThickness }

/-- Lines 189–195: every subtable that carries a `kernTable` dict gets its
values scaled in place, keys untouched. -/
def scaleKernSubtable (s : ℚ) (t : KernSubtable) : KernSubtable :=
  match t with
  | none => none
  | some entries => some (entries.map (fun e => (e.1, scaleInt s e.2)))

/-- The pure table-scaling tail of `scale_font` (lines 120–200), applied
after outline scaling. -/
def scaleTables (s : ℚ) (f : FontModel) : FontModel :=
  { f with
    hmtx := scaleMetricsList s f.hmtx
    vmtx := f.vmtx.map (scaleMetricsList s)
    head := scaleHead s f.head
    hhea := scaleHhea s f.hhea
    os2 := f.os2.map (scaleOS2 s)
    vhea := f.vhea.map (scaleVhea s)
    post := f.post.map (scalePost s)
    kern := f.kern.map (List.map (scaleKernSubtable s))
    gpos := f.gpos.map (scale_gpos_values s) }

/-- Model of `scale_font(input, output, scale_factor, rename_from, rename_to)` on
an already-loaded font: optional rename (skipped when either name is
missing or empty, matching Python truthiness), then outline scaling, then
all metric, kerning and positioning tables. -/
def scale_font (f : FontModel) (s : ℚ)
    (renameFrom renameTo : Option (List Char)) : Except ScaleError FontModel :=
  let f0 := match renameFrom, renameTo with
    | some o, some n => if o.isEmpty || n.isEmpty then f else rename_font f o n
    | _, _ => f
  (scaleOutlines s f0).map (scaleTables s)

/-! ## Batch driver (`main`, lines 478–492)

Each file is processed inside `try/except`; a failure is reported and the
loop continues with the next file. -/

/-- The batch loop: returns the outputs produced and the failures
reported, in file order. -/
def processBatch {α β ε : Type} (step : α → Except ε β) :
    List α → List β × List (α × ε)
  | [] => ([], [])
  | f :: fs =>
    let rest := processBatch step fs
    match step f with
    | Except.ok b => (b :: rest.1, rest.2)
    | Except.error e => (rest.1, (f, e) :: rest.2)

/-! ## Arithmetic facts about the truncating conversion -/

theorem cast_mul_eq (s : ℚ) (x : ℤ) :
    (x : ℚ) * s = ((x * s.num : ℤ) : ℚ) / ((s.den : ℕ) : ℚ) := by
  rw [Int.cast_mul, mul_div_assoc, Rat.num_div_den s]

/-- Truncation characterised: `int(x * s)` is the floor for a nonnegative product and the ceiling for
a negative one: truncation toward zero. -/
theorem scaleInt_eq (s : ℚ) (x : ℤ) :
    scaleInt s x = if 0 ≤ (x : ℚ) * s then ⌊(x : ℚ) * s⌋ else ⌈(x : ℚ) * s⌉ := by
  have hden : (0 : ℤ) ≤ (s.den : ℤ) := Int.ofNat_nonneg s.den
  have hdenq : (0 : ℚ) < (s.den : ℚ) := by
    exact_mod_cast Nat.pos_of_ne_zero s.den_nz
  have hsign : 0 ≤ (x : ℚ) * s ↔ 0 ≤ x * s.num := by
    rw [cast_mul_eq, le_div_iff₀ hdenq, zero_mul]
    exact_mod_cast Iff.rfl
  unfold scaleInt
  split
  · rename_i h
    have ha : 0 ≤ x * s.num := hsign.mp h
    rw [Int.tdiv_eq_ediv ha hden, cast_mul_eq]
    exact (Rat.floor_intCast_div_natCast (x * s.num) s.den).symm
  · rename_i h
    have ha : x * s.num < 0 := by
      by_contra hc
      push_neg at hc
      exact h (hsign.mpr hc)
    have ha' : 0 ≤ -(x * s.num) := by omega
    have hflip : (x * s.num).tdiv s.den = -((-(x * s.num)).tdiv s.den) := by
      rw [Int.neg_tdiv]; omega
    rw [hflip, Int.tdiv_eq_ediv ha' hden]
    have hceil : ⌈(x : ℚ) * s⌉ = -⌊-((x : ℚ) * s)⌋ := by
      rw [Int.floor_neg]; ring
    rw [hceil, cast_mul_eq, ← neg_div, ← Int.cast_neg,
      Rat.floor_intCast_div_natCast (-(x * s.num)) s.den]

theorem scaleInt_of_nonneg {s : ℚ} {x : ℤ} (h : 0 ≤ (x : ℚ) * s) :
    scaleInt s x = ⌊(x : ℚ) * s⌋ := by rw [scaleInt_eq, if_pos h]

theorem scaleInt_of_neg {s : ℚ} {x : ℤ} (h : (x : ℚ) * s < 0) :
    scaleInt s x = ⌈(x : ℚ) * s⌉ := by rw [scaleInt_eq, if_neg (not_le.mpr h)]

/-- Scaling by 1 is the identity on every converted value. -/
theorem scaleInt_one (x : ℤ) : scaleInt 1 x = x := by
  rw [scaleInt_eq, mul_one]
  simp

/-- Scaling by `s ≥ 1` and then by `1/s` moves any integer by at most one
unit. -/
theorem scaleInt_roundTrip (x : ℤ) (s : ℚ) (hs : 1 ≤ s) :
    |scaleInt s⁻¹ (scaleInt s x) - x| ≤ 1 := by
  have hs0 : (0 : ℚ) < s := lt_of_lt_of_le one_pos hs
  have hsne : s ≠ 0 := ne_of_gt hs0
  have hinv0 : (0 : ℚ) < s⁻¹ := inv_pos.mpr hs0
  have hinv1 : s⁻¹ ≤ 1 := inv_le_one_of_one_le₀ hs
  rcases le_or_lt 0 x with hx | hx
  · have hxq : (0 : ℚ) ≤ (x : ℚ) := by exact_mod_cast hx
    have hxs : 0 ≤ (x : ℚ) * s := mul_nonneg hxq hs0.le
    have hy := scaleInt_of_nonneg hxs
    set y := scaleInt s x with hydef
    have hy0 : 0 ≤ y := by rw [hy]; exact Int.floor_nonneg.mpr hxs
    have hyq : (0 : ℚ) ≤ (y : ℚ) := by exact_mod_cast hy0
    have hys : 0 ≤ (y : ℚ) * s⁻¹ := mul_nonneg hyq hinv0.le
    have hz := scaleInt_of_nonneg hys
    rw [hz]
    have hub : (y : ℚ) * s⁻¹ ≤ (x : ℚ) := by
      have h1 : (y : ℚ) ≤ (x : ℚ) * s := by rw [hy]; exact Int.floor_le _
      have h2 := mul_le_mul_of_nonneg_right h1 hinv0.le
      rwa [mul_assoc, mul_inv_cancel₀ hsne, mul_one] at h2
    have hlb : ((x : ℚ) - 1) < (y : ℚ) * s⁻¹ := by
      have h1 : (x : ℚ) * s - 1 < (y : ℚ) := by rw [hy]; exact Int.sub_one_lt_floor _
      have h2 := mul_lt_mul_of_pos_right h1 hinv0
      rw [sub_mul, mul_assoc, mul_inv_cancel₀ hsne, mul_one, one_mul] at h2
      have h3 : (x : ℚ) - 1 ≤ (x : ℚ) - s⁻¹ := by linarith
      linarith
    have hzu : ⌊(y : ℚ) * s⁻¹⌋ ≤ x := by
      calc ⌊(y : ℚ) * s⁻¹⌋ ≤ ⌊(x : ℚ)⌋ := Int.floor_le_floor hub
        _ = x := Int.floor_intCast x
    have hzl : x - 1 ≤ ⌊(y : ℚ) * s⁻¹⌋ := by
      apply Int.le_floor.mpr
      push_cast
      linarith
    rw [abs_le]
    omega
  · have hxq : ((x : ℚ)) < 0 := by exact_mod_cast hx
    have hxs : (x : ℚ) * s < 0 := mul_neg_of_neg_of_pos hxq hs0
    have hy := scaleInt_of_neg hxs
    set y := scaleInt s x with hydef
    have hxm1 : (x : ℚ) ≤ -1 := by
      have hxi : x ≤ -1 := by omega
      exact_mod_cast hxi
    have hy1 : y ≤ -1 := by
      rw [hy]
      apply Int.ceil_le.mpr
      have hxle : (x : ℚ) * s ≤ (x : ℚ) := by
        have := mul_le_mul_of_nonpos_left hs hxq.le
        rwa [mul_one] at this
      push_cast
      linarith
    have hyq : ((y : ℚ)) < 0 := by
      have hy1q : ((y : ℚ)) ≤ -1 := by exact_mod_cast hy1
      linarith
    have hys : (y : ℚ) * s⁻¹ < 0 := mul_neg_of_neg_of_pos hyq hinv0
    have hz := scaleInt_of_neg hys
    rw [hz]
    have hlb : (x : ℚ) ≤ (y : ℚ) * s⁻¹ := by
      have h1 : (x : ℚ) * s ≤ (y : ℚ) := by rw [hy]; exact Int.le_ceil _
      have h2 := mul_le_mul_of_nonneg_right h1 hinv0.le
      rwa [mul_assoc, mul_inv_cancel₀ hsne, mul_one] at h2
    have hub : (y : ℚ) * s⁻¹ < (x : ℚ) + 1 := by
      have h1 : (y : ℚ) < (x : ℚ) * s + 1 := by rw [hy]; exact Int.ceil_lt_add_one _
      have h2 := mul_lt_mul_of_pos_right h1 hinv0
      rw [add_mul, mul_assoc, mul_inv_cancel₀ hsne, mul_one, one_mul] at h2
      linarith
    have hzl : x ≤ ⌈(y : ℚ) * s⁻¹⌉ := by
      calc x = ⌈((x : ℤ) : ℚ)⌉ := (Int.ceil_intCast x).symm
        _ ≤ ⌈(y : ℚ) * s⁻¹⌉ := Int.ceil_le_ceil hlb
    have hzu : ⌈(y : ℚ) * s⁻¹⌉ ≤ x + 1 := by
      apply Int.ceil_le.mpr
      push_cast
      linarith
    rw [abs_le]
    omega

/-! ## Structural facts about `scale_glyph_ttf` -/

theorem scale_glyph_ttf_numberOfContours (g : TTGlyph) (s : ℚ) :
    (scale_glyph_ttf g s).numberOfContours = g.numberOfContours := by
  unfold scale_glyph_ttf
  dsimp only
  split
  · split <;> rfl
  · split
    · split <;> rfl
    · split <;> rfl

theorem scale_glyph_ttf_coords_simple (g : TTGlyph) (s : ℚ)
    (hc : 0 < g.numberOfContours) :
    (scale_glyph_ttf g s).coordinates
      = g.coordinates.map (fun p => (scaleInt s p.1, scaleInt s p.2)) := by
  have hnc : g.isComposite = false := by
    unfold TTGlyph.isComposite
    simp only [decide_eq_false_iff_not]
    omega
  unfold scale_glyph_ttf
  dsimp only
  rw [hnc]
  simp only [Bool.false_eq_true, if_false, if_pos hc]
  split <;> rfl

theorem scale_glyph_ttf_components_composite (g : TTGlyph) (s : ℚ)
    (hc : g.isComposite = true) :
    (scale_glyph_ttf g s).components = g.components.map (scaleComponent s) := by
  unfold scale_glyph_ttf
  dsimp only
  rw [hc]
  simp only [if_true]
  split <;> rfl

/-! ## Claim C1 — rounding rule of the outline scaler -/

/-- C1, counterexample: with the positive scale factor 7/10, the simple
coordinate 7 is stored as 4 = int(4.9) (and likewise a composite offset of
7), while both admissible nearest-integer roundings of 4.9 give 5.  The
stored value IS the truncation toward zero the claim excludes. -/
theorem C1_counterexample :
    (0 : ℚ) < mkRat 7 10 ∧
    (mkRat 7 10 : ℚ) = 7 / 10 ∧
    (scale_glyph_ttf ⟨1, [(7, 0)], [], none⟩ (mkRat 7 10)).coordinates = [(4, 0)] ∧
    (scale_glyph_ttf ⟨-1, [], [⟨some 7, some 0⟩], none⟩ (mkRat 7 10)).components
      = [⟨some 4, some 0⟩] ∧
    roundHalfAwayFromZero ((7 : ℚ) * (7 / 10)) = 5 ∧
    roundHalfToEven ((7 : ℚ) * (7 / 10)) = 5 ∧
    (4 : ℤ) ≠ 5 := by
  refine ⟨by decide, ?_, by decide, by decide, ?_, ?_, by decide⟩
  · rw [Rat.mkRat_eq_divInt, Rat.divInt_eq_div]; norm_num
  · norm_num [roundHalfAwayFromZero]
  · norm_num [roundHalfToEven]

/-- C1 (amended): for every positive scale factor, every stored simple
coordinate and composite offset equals the original multiplied by the
factor and truncated toward zero (Python `int()`), i.e. floored when the
product is nonnegative and ceiled when it is negative. -/
theorem C1_scaled_values_truncate (g : TTGlyph) (s : ℚ) (h0 : 0 < s) :
    ((0 : ℤ) < g.numberOfContours →
      (scale_glyph_ttf g s).coordinates
        = g.coordinates.map (fun p => (scaleInt s p.1, scaleInt s p.2))) ∧
    (g.isComposite = true →
      (scale_glyph_ttf g s).components = g.components.map (scaleComponent s)) ∧
    (∀ x : ℤ, scaleInt s x
        = if 0 ≤ (x : ℚ) * s then ⌊(x : ℚ) * s⌋ else ⌈(x : ℚ) * s⌉) :=
  ⟨fun hc => scale_glyph_ttf_coords_simple g s hc,
   fun hc => scale_glyph_ttf_components_composite g s hc,
   fun x => scaleInt_eq s x⟩

/-- Witness for C1 (amended) at scale factor 3/2 on a one-point glyph. -/
theorem C1_scaled_values_truncate_witness :
    (0 : ℚ) < mkRat 3 2 ∧
    (scale_glyph_ttf ⟨1, [(5, -5)], [], none⟩ (mkRat 3 2)).coordinates
      = [(5, -5)].map (fun p => (scaleInt (mkRat 3 2) p.1, scaleInt (mkRat 3 2) p.2)) :=
  ⟨by decide,
   (C1_scaled_values_truncate ⟨1, [(5, -5)], [], none⟩ (mkRat 3 2) (by decide)).1
     (by decide)⟩

/-! ## Claim C2 — provenance of the scaled bounding box -/

/-- C2, counterexample: glyph A is a simple glyph with the single point
(5, 5); glyph B is a composite referencing it at offset (5, 5), with a
correct stored bounding box (10...10).  At scale factor 11/10 the code
stores xMax = int(10 * 1.1) = 11 for B, while the bounds assembled from
the scaled sub-component (offset int(5.5) = 5 plus scaled point (5, 5))
reach only 10: the box is scaled in place, not recomputed. -/
theorem C2_counterexample :
    (0 : ℚ) < mkRat 11 10 ∧
    (scale_glyph_ttf ⟨-1, [], [⟨some 5, some 5⟩], some ⟨10, 10, 10, 10⟩⟩
        (mkRat 11 10)).bbox = some ⟨11, 11, 11, 11⟩ ∧
    (scale_glyph_ttf ⟨1, [(5, 5)], [], some ⟨5, 5, 5, 5⟩⟩
        (mkRat 11 10)).coordinates = [(5, 5)] ∧
    (scale_glyph_ttf ⟨-1, [], [⟨some 5, some 5⟩], some ⟨10, 10, 10, 10⟩⟩
        (mkRat 11 10)).components = [⟨some 5, some 5⟩] ∧
    spec_xMaxOfPoints (spec_componentPoints [(5, 5)] (5, 5)) = some 10 ∧
    scaleInt (mkRat 11 10) 10 = 11 ∧
    (11 : ℤ) ≠ 10 := by
  decide

/-- C2 (amended): the bounding box the scaler stores is the pre-existing
box with each field multiplied and truncated in place (done only when the
box is present and the glyph is non-empty); it is never recomputed from
the scaled coordinates or assembled from sub-components. -/
theorem C2_bbox_scaled_in_place (g : TTGlyph) (s : ℚ) :
    (scale_glyph_ttf g s).bbox =
      if g.bbox.isSome ∧ g.numberOfContours ≠ 0 then g.bbox.map (scaleBBox s)
      else g.bbox := by
  unfold scale_glyph_ttf
  dsimp only
  split
  · split <;> rfl
  · split
    · split <;> rfl
    · split <;> rfl

/-! ## Claim C7 — scale by s, then by 1/s -/

/-- C7, counterexample: at s = 1/10 (a positive factor), the coordinate 19
becomes int(1.9) = 1, and scaling back by 10 = (1/10)⁻¹ gives 10, which is
9 units away from 19 — far outside the claimed ±1 bound. -/
theorem C7_counterexample :
    (0 : ℚ) < mkRat 1 10 ∧
    (mkRat 10 1 : ℚ) = (mkRat 1 10 : ℚ)⁻¹ ∧
    (scale_glyph_ttf (scale_glyph_ttf ⟨1, [(19, 0)], [], none⟩ (mkRat 1 10))
        (mkRat 10 1)).coordinates = [(10, 0)] ∧
    ¬ (|(10 : ℤ) - 19| ≤ 1) := by
  refine ⟨by decide, ?_, by decide, by decide⟩
  rw [Rat.mkRat_eq_divInt, Rat.mkRat_eq_divInt, Rat.divInt_eq_div, Rat.divInt_eq_div]
  norm_num

/-- C7 (amended): for scale factors s ≥ 1, scaling a simple glyph by s and
then by 1/s moves every coordinate by at most one font unit.  (For s < 1
the truncation error is amplified by 1/s on the way back, so no such bound
holds; see the counterexample.) -/
theorem C7_roundTrip_within_one (g : TTGlyph) (s : ℚ) (hs : 1 ≤ s)
    (hc : 0 < g.numberOfContours) :
    List.Forall₂ (fun p q : ℤ × ℤ => |q.1 - p.1| ≤ 1 ∧ |q.2 - p.2| ≤ 1)
      g.coordinates
      (scale_glyph_ttf (scale_glyph_ttf g s) s⁻¹).coordinates := by
  have hc1 : 0 < (scale_glyph_ttf g s).numberOfContours := by
    rw [scale_glyph_ttf_numberOfContours]; exact hc
  rw [scale_glyph_ttf_coords_simple _ _ hc1, scale_glyph_ttf_coords_simple _ _ hc,
    List.map_map]
  rw [List.forall₂_map_right_iff]
  rw [List.forall₂_same]
  intro p _
  exact ⟨scaleInt_roundTrip p.1 s hs, scaleInt_roundTrip p.2 s hs⟩

/-- Witness for C7 (amended) at s = 3/2: the point (5, 5) becomes (7, 7)
and returns to (4, 4), within one unit of the original. -/
theorem C7_roundTrip_within_one_witness :
    (1 : ℚ) ≤ mkRat 3 2 ∧
    List.Forall₂ (fun p q : ℤ × ℤ => |q.1 - p.1| ≤ 1 ∧ |q.2 - p.2| ≤ 1)
      [((5 : ℤ), (5 : ℤ))]
      (scale_glyph_ttf (scale_glyph_ttf ⟨1, [(5, 5)], [], none⟩ (mkRat 3 2))
        (mkRat 3 2)⁻¹).coordinates :=
  ⟨by decide,
   C7_roundTrip_within_one ⟨1, [(5, 5)], [], none⟩ (mkRat 3 2) (by decide) (by decide)⟩

/-! ## Scale factor 1 is the identity, table by table -/

theorem optMap_scaleInt_one (o : Option ℤ) : o.map (scaleInt 1) = o := by
  cases o <;> simp [scaleInt_one]

theorem scaleBBox_one (b : BBox) : scaleBBox 1 b = b := by
  cases b
  simp [scaleBBox, scaleInt_one]

theorem scaleComponent_one (c : Component) : scaleComponent 1 c = c := by
  cases c
  simp [scaleComponent, optMap_scaleInt_one]

theorem scale_glyph_ttf_one (g : TTGlyph) : scale_glyph_ttf g 1 = g := by
  have hbb : Option.map (scaleBBox 1) g.bbox = g.bbox := by
    rw [show scaleBBox 1 = id from funext scaleBBox_one, Option.map_id]
    rfl
  have hcs : g.coordinates.map (fun p : ℤ × ℤ => (scaleInt 1 p.1, scaleInt 1 p.2))
      = g.coordinates := by
    simp [scaleInt_one]
  have hcomp : g.components.map (scaleComponent 1) = g.components := by
    rw [show scaleComponent 1 = id from funext scaleComponent_one, List.map_id]
  unfold scale_glyph_ttf
  dsimp only
  split
  · split <;> simp [hcomp, hbb]
  · split
    · split <;> simp [hcs, hbb]
    · split <;> simp [hbb]

theorem scaleOptValue_one (o : Option ℤ) : scaleOptValue 1 o = o := by
  cases o with
  | none => rfl
  | some v =>
    simp only [scaleOptValue]
    split
    · rename_i h
      rw [h]
    · rw [scaleInt_one]

theorem scale_value_record_one (v : ValueRecord) : scale_value_record 1 v = v := by
  cases v
  simp [scale_value_record, scaleOptValue_one]

theorem scale_anchor_one (a : Anchor) : scale_anchor 1 a = a := by
  cases a
  simp [scale_anchor, optMap_scaleInt_one]

theorem scaleOptAnchor_one (o : Option Anchor) : scaleOptAnchor 1 o = o := by
  cases o <;> simp [scaleOptAnchor, scale_anchor_one]

theorem scalePairValue_one (pv : PairValueRecord) : scalePairValue 1 pv = pv := by
  cases pv with
  | mk v1 v2 => cases v1 <;> cases v2 <;> simp [scalePairValue, scale_value_record_one]

theorem scalePairSet_one (ps : PairSet) : scalePairSet 1 ps = ps := by
  cases ps
  simp only [scalePairSet]
  rw [show scalePairValue 1 = id from funext scalePairValue_one, List.map_id]

theorem scaleClass2Record_one (c : Class2Record) : scaleClass2Record 1 c = c := by
  cases c with
  | mk v1 v2 => cases v1 <;> cases v2 <;> simp [scaleClass2Record, scale_value_record_one]

theorem scaleClass1Record_one (c : Class1Record) : scaleClass1Record 1 c = c := by
  cases c
  simp only [scaleClass1Record]
  rw [show scaleClass2Record 1 = id from funext scaleClass2Record_one, List.map_id]

theorem scaleBaseRecord_one (r : BaseRecord) : scaleBaseRecord 1 r = r := by
  cases r
  simp only [scaleBaseRecord]
  rw [show scaleOptAnchor 1 = id from funext scaleOptAnchor_one, List.map_id]

theorem scaleBaseArray_one (b : BaseArray) : scaleBaseArray 1 b = b := by
  cases b
  simp only [scaleBaseArray]
  rw [show scaleBaseRecord 1 = id from funext scaleBaseRecord_one, List.map_id]

theorem scaleMarkRecord_one (r : MarkRecord) : scaleMarkRecord 1 r = r := by
  cases r
  simp [scaleMarkRecord, scaleOptAnchor_one]

theorem scaleMarkArray_one (m : MarkArray) : scaleMarkArray 1 m = m := by
  cases m
  simp only [scaleMarkArray]
  rw [show scaleMarkRecord 1 = id from funext scaleMarkRecord_one, List.map_id]

theorem scaleMark2Record_one (r : Mark2Record) : scaleMark2Record 1 r = r := by
  cases r
  simp only [scaleMark2Record]
  rw [show scaleOptAnchor 1 = id from funext scaleOptAnchor_one, List.map_id]

theorem scaleMark2Array_one (m : Mark2Array) : scaleMark2Array 1 m = m := by
  cases m
  simp only [scaleMark2Array]
  rw [show scaleMark2Record 1 = id from funext scaleMark2Record_one, List.map_id]

theorem scaleComponentRecord_one (c : ComponentRecord) : scaleComponentRecord 1 c = c := by
  cases c
  simp only [scaleComponentRecord]
  rw [show scaleOptAnchor 1 = id from funext scaleOptAnchor_one, List.map_id]

theorem scaleLigatureAttach_one (l : LigatureAttach) : scaleLigatureAttach 1 l = l := by
  cases l
  simp only [scaleLigatureAttach]
  rw [show scaleComponentRecord 1 = id from funext scaleComponentRecord_one, List.map_id]

theorem scaleLigatureArray_one (l : LigatureArray) : scaleLigatureArray 1 l = l := by
  cases l
  simp only [scaleLigatureArray]
  rw [show scaleLigatureAttach 1 = id from funext scaleLigatureAttach_one, List.map_id]

theorem scaleOptPairSet_one (o : Option PairSet) : scaleOptPairSet 1 o = o := by
  cases o with
  | none => rfl
  | some ps =>
    simp only [scaleOptPairSet]
    rw [scalePairSet_one]

theorem scale_gpos_subtable_one (st : GposSubtable) : scale_gpos_subtable 1 st = st := by
  unfold scale_gpos_subtable
  rw [show scale_value_record 1 = id from funext scale_value_record_one,
    show scaleOptPairSet 1 = id from funext scaleOptPairSet_one,
    show scaleClass1Record 1 = id from funext scaleClass1Record_one,
    show scaleBaseArray 1 = id from funext scaleBaseArray_one,
    show scaleMarkArray 1 = id from funext scaleMarkArray_one,
    show scaleMark2Array 1 = id from funext scaleMark2Array_one,
    show scaleLigatureArray 1 = id from funext scaleLigatureArray_one]
  rw [show (List.map (id : ValueRecord → ValueRecord)) = id from funext List.map_id,
    show (List.map (id : Option PairSet → Option PairSet)) = id from funext List.map_id,
    show (List.map (id : Class1Record → Class1Record)) = id from funext List.map_id]
  rw [Option.map_id, Option.map_id, Option.map_id, Option.map_id, Option.map_id,
    Option.map_id, Option.map_id]
  rfl

theorem scale_gpos_values_one (g : GPOSTable) : scale_gpos_values 1 g = g := by
  unfold scale_gpos_values
  cases g with
  | mk llopt =>
    cases llopt with
    | none => rfl
    | some ll =>
      cases ll with
      | mk lookups =>
        dsimp only
        have he : ∀ lk ∈ lookups,
            ({ SubTable := lk.SubTable.map (scale_gpos_subtable 1) } : GposLookup) = lk := by
          intro lk _
          cases lk
          simp only [GposLookup.mk.injEq]
          rw [show scale_gpos_subtable 1 = id from funext scale_gpos_subtable_one,
            List.map_id]
        rw [List.map_congr_left he, List.map_id']

theorem scaleMetricsList_one (l : List (String × ℤ × ℤ)) : scaleMetricsList 1 l = l := by
  unfold scaleMetricsList
  simp [scaleInt_one]

theorem scaleHead_one (h : HeadTable) : scaleHead 1 h = h := by
  cases h
  simp [scaleHead, scaleInt_one]

theorem scaleHhea_one (h : HheaTable) : scaleHhea 1 h = h := by
  cases h
  simp [scaleHhea, scaleInt_one]

theorem scaleOS2_one (t : OS2Table) : scaleOS2 1 t = t := by
  cases t
  simp [scaleOS2, scaleInt_one]

theorem scaleVhea_one (t : VheaTable) : scaleVhea 1 t = t := by
  cases t
  simp [scaleVhea, scaleInt_one]

theorem scalePost_one (t : PostTable) : scalePost 1 t = t := by
  cases t
  simp [scalePost, scaleInt_one]

theorem scaleKernSubtable_one (t : KernSubtable) : scaleKernSubtable 1 t = t := by
  cases t <;> simp [scaleKernSubtable, scaleInt_one]

theorem scale_cff_glyphs_one (t : CFFTable) : scale_cff_glyphs 1 t = t := by
  cases t
  simp [scale_cff_glyphs]

theorem scaleTables_one (f : FontModel) : scaleTables 1 f = f := by
  have hvm : f.vmtx.map (scaleMetricsList 1) = f.vmtx := by
    cases f.vmtx <;> simp [scaleMetricsList_one]
  have hos2 : f.os2.map (scaleOS2 1) = f.os2 := by
    cases f.os2 <;> simp [scaleOS2_one]
  have hvhea : f.vhea.map (scaleVhea 1) = f.vhea := by
    cases f.vhea <;> simp [scaleVhea_one]
  have hpost : f.post.map (scalePost 1) = f.post := by
    cases f.post <;> simp [scalePost_one]
  have hkern : f.kern.map (List.map (scaleKernSubtable 1)) = f.kern := by
    cases f.kern with
    | none => rfl
    | some ks =>
      dsimp only [Option.map]
      rw [show scaleKernSubtable 1 = id from funext scaleKernSubtable_one, List.map_id]
  have hgpos : f.gpos.map (scale_gpos_values 1) = f.gpos := by
    cases f.gpos <;> simp [scale_gpos_values_one]
  unfold scaleTables
  rw [scaleMetricsList_one, hvm, scaleHead_one, scaleHhea_one, hos2, hvhea, hpost,
    hkern, hgpos]

theorem scaleOutlines_one (f : FontModel) (h : f.cff.isSome ∨ f.glyf.isSome) :
    scaleOutlines 1 f = Except.ok f := by
  unfold scaleOutlines
  cases hc : f.cff with
  | some t =>
    dsimp only
    rw [scale_cff_glyphs_one, ← hc]
  | none =>
    cases hg : f.glyf with
    | none => simp [hc, hg] at h
    | some gs =>
      dsimp only
      have he : ∀ e ∈ gs, ((e.1, if e.2.numberOfContours ≠ 0
          then scale_glyph_ttf e.2 1 else e.2) : String × TTGlyph) = e := by
        intro e _
        rw [scale_glyph_ttf_one, ite_self]
      rw [List.map_congr_left he, List.map_id', ← hg, ← hc]

/-! ## Claim C8 — scale factor 1.0 changes nothing -/

/-- C8: on any font that carries at least one outline encoding, applying
scale factor 1 reproduces the font unchanged — every multiply-and-convert
of the outline, metrics, kerning and positioning scalers is the identity. -/
theorem C8_scale_one_identity (f : FontModel) (h : f.cff.isSome ∨ f.glyf.isSome) :
    scale_font f 1 none none = Except.ok f := by
  have h1 : scale_font f 1 none none = (scaleOutlines 1 f).map (scaleTables 1) := rfl
  rw [h1, scaleOutlines_one f h]
  show Except.ok (scaleTables 1 f) = Except.ok f
  rw [scaleTables_one]

/-- Witness for C8 on a small TrueType font with one glyph, metrics,
kerning and positioning data. -/
theorem C8_scale_one_identity_witness :
    let f : FontModel :=
      { cff := none
        glyf := some [(r"A", ⟨1, [(10, 20)], [], some ⟨10, 20, 10, 20⟩⟩)]
        hmtx := [(r"A", 600, 50)]
        vmtx := none
        head := ⟨-10, -20, 30, 40⟩
        hhea := ⟨1, 2, 3, 4, 5, 6, 7⟩
        os2 := none
        vhea := none
        post := some ⟨-75, 50⟩
        kern := some [some [((r"A", r"A"), -15)]]
        gpos := none
        name := none }
    (f.cff.isSome ∨ f.glyf.isSome) ∧ scale_font f 1 none none = Except.ok f := by
  exact ⟨Or.inr rfl, C8_scale_one_identity _ (Or.inr rfl)⟩

/-! ## Decomposition of `scale_font` -/

theorem scale_font_none_eq (f : FontModel) (s : ℚ) :
    scale_font f s none none = (scaleOutlines s f).map (scaleTables s) := rfl

/-- Outline scaling touches only the `cff` and `glyf` tables. -/
theorem scaleOutlines_ok_fields (s : ℚ) (f f1 : FontModel)
    (h : scaleOutlines s f = Except.ok f1) :
    f1.hmtx = f.hmtx ∧ f1.vmtx = f.vmtx ∧ f1.head = f.head ∧ f1.hhea = f.hhea ∧
    f1.os2 = f.os2 ∧ f1.vhea = f.vhea ∧ f1.post = f.post ∧ f1.kern = f.kern ∧
    f1.gpos = f.gpos ∧ f1.name = f.name := by
  unfold scaleOutlines at h
  cases hc : f.cff with
  | some t =>
    rw [hc] at h
    dsimp only at h
    simp only [Except.ok.injEq] at h
    subst h
    exact ⟨rfl, rfl, rfl, rfl, rfl, rfl, rfl, rfl, rfl, rfl⟩
  | none =>
    rw [hc] at h
    cases hg : f.glyf with
    | none =>
      rw [hg] at h
      exact Except.noConfusion h
    | some gs =>
      rw [hg] at h
      dsimp only at h
      simp only [Except.ok.injEq] at h
      subst h
      exact ⟨rfl, rfl, rfl, rfl, rfl, rfl, rfl, rfl, rfl, rfl⟩

theorem scale_font_ok_decomp (f : FontModel) (s : ℚ) (out : FontModel)
    (h : scale_font f s none none = Except.ok out) :
    ∃ f1, scaleOutlines s f = Except.ok f1 ∧ out = scaleTables s f1 := by
  rw [scale_font_none_eq] at h
  cases hE : scaleOutlines s f with
  | error e =>
    rw [hE] at h
    exact Except.noConfusion h
  | ok f1 =>
    rw [hE] at h
    dsimp only [Except.map] at h
    simp only [Except.ok.injEq] at h
    exact ⟨f1, rfl, h.symm⟩

/-! ## Claim C3 — metric and header fields -/

/-- C3, counterexample: on a font whose `hhea.ascent` is 7 and scale
factor 7/10, the scaled ascent is int(4.9) = 4, but a multiply-and-round
(under either admissible tie rule) gives 5: metric fields are truncated,
not rounded to nearest. -/
theorem C3_counterexample :
    (0 : ℚ) < mkRat 7 10 ∧
    (mkRat 7 10 : ℚ) = 7 / 10 ∧
    (scale_font
        { cff := none, glyf := some [], hmtx := [], vmtx := none, head := ⟨0, 0, 0, 0⟩,
          hhea := ⟨7, 0, 0, 0, 0, 0, 0⟩, os2 := none, vhea := none, post := none,
          kern := none, gpos := none, name := none }
        (mkRat 7 10) none none).toOption.map (fun o => o.hhea.ascent) = some 4 ∧
    roundHalfAwayFromZero ((7 : ℚ) * (7 / 10)) = 5 ∧
    roundHalfToEven ((7 : ℚ) * (7 / 10)) = 5 ∧
    ((4 : ℤ) ≠ 5) := by
  refine ⟨by decide, ?_, by decide, ?_, ?_, by decide⟩
  · rw [Rat.mkRat_eq_divInt, Rat.divInt_eq_div]
    norm_num
  · norm_num [roundHalfAwayFromZero]
  · norm_num [roundHalfToEven]

/-- C3 (amended): for every font the scaler accepts, every per-glyph
metric and every header field of `head`, `hhea`, `OS/2`, `vhea` and `post`
is independently multiplied by the factor and truncated toward zero
(`scaleInt`), and every absent table stays absent — never defaulted. -/
theorem C3_metrics_truncated_absent_skipped (f : FontModel) (s : ℚ) (out : FontModel)
    (h : scale_font f s none none = Except.ok out) :
    out.hmtx = f.hmtx.map (fun e => (e.1, scaleInt s e.2.1, scaleInt s e.2.2)) ∧
    out.vmtx = f.vmtx.map (scaleMetricsList s) ∧
    out.head = scaleHead s f.head ∧
    out.hhea = scaleHhea s f.hhea ∧
    out.os2 = f.os2.map (scaleOS2 s) ∧
    out.vhea = f.vhea.map (scaleVhea s) ∧
    out.post = f.post.map (scalePost s) ∧
    (f.vmtx = none → out.vmtx = none) ∧
    (f.os2 = none → out.os2 = none) ∧
    (f.vhea = none → out.vhea = none) ∧
    (f.post = none → out.post = none) ∧
    (f.kern = none → out.kern = none) := by
  obtain ⟨f1, h1, h2⟩ := scale_font_ok_decomp f s out h
  obtain ⟨e1, e2, e3, e4, e5, e6, e7, e8, _, _⟩ := scaleOutlines_ok_fields s f f1 h1
  subst h2
  unfold scaleTables
  dsimp only
  rw [e1, e2, e3, e4, e5, e6, e7, e8]
  refine ⟨rfl, rfl, rfl, rfl, rfl, rfl, rfl, ?_, ?_, ?_, ?_, ?_⟩ <;>
    · intro hnone
      rw [hnone]
      rfl

/-- Witness for C3 (amended) on a small font with factor 3/2. -/
theorem C3_metrics_truncated_absent_skipped_witness :
    ∃ out, scale_font
        { cff := none, glyf := some [], hmtx := [(r"A", 10, 1)], vmtx := none,
          head := ⟨1, 2, 3, 4⟩, hhea := ⟨7, 0, 0, 0, 0, 0, 0⟩, os2 := none,
          vhea := none, post := none, kern := none, gpos := none, name := none }
        (mkRat 3 2) none none = Except.ok out ∧
      out.hhea = scaleHhea (mkRat 3 2) ⟨7, 0, 0, 0, 0, 0, 0⟩ ∧ out.os2 = none := by
  obtain ⟨out, hout⟩ : ∃ out, scale_font
      { cff := none, glyf := some [], hmtx := [(r"A", 10, 1)], vmtx := none,
        head := ⟨1, 2, 3, 4⟩, hhea := ⟨7, 0, 0, 0, 0, 0, 0⟩, os2 := none,
        vhea := none, post := none, kern := none, gpos := none, name := none }
      (mkRat 3 2) none none = Except.ok out := ⟨_, rfl⟩
  exact ⟨out, hout, (C3_metrics_truncated_absent_skipped _ _ _ hout).2.2.2.1,
    (C3_metrics_truncated_absent_skipped _ _ _ hout).2.2.2.2.2.2.2.2.1 rfl⟩

/-! ## Claim C5 — font with neither outline encoding -/

/-- C5, counterexample: a font carrying neither a CFF table nor a `glyf`
table makes the outline step raise a missing-table error (the Python code
accesses the `glyf` table unconditionally on the non-CFF path), so
processing of that font aborts — it is not a silent no-op. -/
theorem C5_counterexample :
    scale_font
        { cff := none, glyf := none, hmtx := [], vmtx := none, head := ⟨0, 0, 0, 0⟩,
          hhea := ⟨0, 0, 0, 0, 0, 0, 0⟩, os2 := none, vhea := none, post := none,
          kern := none, gpos := none, name := none }
        (mkRat 108 100) none none
      = Except.error ScaleError.missingGlyfTable := rfl

theorem rename_font_cff_none (f : FontModel) (o n : List Char) (h : f.cff = none) :
    (rename_font f o n).cff = none := by
  unfold rename_font
  cases hn : f.name <;> dsimp only <;> rw [h] <;> rfl

theorem rename_font_glyf (f : FontModel) (o n : List Char) :
    (rename_font f o n).glyf = f.glyf := by
  unfold rename_font
  cases hn : f.name <;> rfl

/-- C5 (amended): on a font with neither outline encoding, `scale_font`
raises the missing-`glyf` error for any scale factor and rename request,
aborting that font (in batch mode the error is caught per file; see C6). -/
theorem C5_missing_outlines_error (f : FontModel) (s : ℚ)
    (rf rt : Option (List Char)) (h1 : f.cff = none) (h2 : f.glyf = none) :
    scale_font f s rf rt = Except.error ScaleError.missingGlyfTable := by
  have key : ∀ f0 : FontModel, f0.cff = none → f0.glyf = none →
      (scaleOutlines s f0).map (scaleTables s)
        = Except.error ScaleError.missingGlyfTable := by
    intro f0 hc hg
    unfold scaleOutlines
    rw [hc, hg]
    rfl
  unfold scale_font
  cases rf with
  | none => exact key f h1 h2
  | some o =>
    cases rt with
    | none => exact key f h1 h2
    | some n =>
      dsimp only
      split
      · exact key f h1 h2
      · exact key _ (rename_font_cff_none f o n h1)
          (by rw [rename_font_glyf]; exact h2)

/-- Witness for C5 (amended) at factor 108/100 with a rename request. -/
theorem C5_missing_outlines_error_witness :
    scale_font
        { cff := none, glyf := none, hmtx := [(r"A", 1, 1)], vmtx := none,
          head := ⟨1, 1, 1, 1⟩, hhea := ⟨1, 1, 1, 1, 1, 1, 1⟩, os2 := none,
          vhea := none, post := none, kern := none, gpos := none, name := some [] }
        (mkRat 108 100) (some r"Reddit Mono".toList) (some r"RedditRadon Mono".toList)
      = Except.error ScaleError.missingGlyfTable :=
  C5_missing_outlines_error _ _ _ _ rfl rfl

/-! ## Claim C10 — key sets of mutated dictionaries -/

theorem keys_scaleMetricsList (s : ℚ) (l : List (String × ℤ × ℤ)) :
    (scaleMetricsList s l).map Prod.fst = l.map Prod.fst := by
  unfold scaleMetricsList
  rw [List.map_map]
  rfl

theorem keys_scaleKernSubtable (s : ℚ) (t : KernSubtable) :
    (scaleKernSubtable s t).map (fun l => l.map Prod.fst)
      = t.map (fun l => l.map Prod.fst) := by
  cases t with
  | none => rfl
  | some l =>
    dsimp only [scaleKernSubtable, Option.map]
    rw [List.map_map]
    rfl

/-- C10: scaling never changes which glyphs appear in the horizontal and
vertical metric tables nor which glyph pairs appear in the legacy kern
subtables — only the numeric values attached to those keys. -/
theorem C10_key_sets_preserved (f : FontModel) (s : ℚ) (out : FontModel)
    (h : scale_font f s none none = Except.ok out) :
    out.hmtx.map Prod.fst = f.hmtx.map Prod.fst ∧
    out.vmtx.map (fun l => l.map Prod.fst) = f.vmtx.map (fun l => l.map Prod.fst) ∧
    out.kern.map (fun ks => ks.map (fun t => t.map (fun l => l.map Prod.fst)))
      = f.kern.map (fun ks => ks.map (fun t => t.map (fun l => l.map Prod.fst))) := by
  obtain ⟨f1, h1, h2⟩ := scale_font_ok_decomp f s out h
  obtain ⟨e1, e2, _, _, _, _, _, e8, _, _⟩ := scaleOutlines_ok_fields s f f1 h1
  subst h2
  unfold scaleTables
  dsimp only
  rw [e1, e2, e8]
  refine ⟨keys_scaleMetricsList s f.hmtx, ?_, ?_⟩
  · cases f.vmtx with
    | none => rfl
    | some v =>
      dsimp only [Option.map]
      rw [keys_scaleMetricsList]
  · cases f.kern with
    | none => rfl
    | some ks =>
      dsimp only [Option.map]
      congr 1
      rw [List.map_map]
      exact List.map_congr_left (fun t _ => keys_scaleKernSubtable s t)

/-- Witness for C10 on a font holding one glyph metric and one kern pair. -/
theorem C10_key_sets_preserved_witness :
    ∃ out, scale_font
        { cff := none, glyf := some [], hmtx := [(r"A", 600, 50)], vmtx := none,
          head := ⟨0, 0, 0, 0⟩, hhea := ⟨0, 0, 0, 0, 0, 0, 0⟩, os2 := none,
          vhea := none, post := none, kern := some [some [((r"A", r"V"), -80)]],
          gpos := none, name := none }
        (mkRat 3 2) none none = Except.ok out ∧
      out.hmtx.map Prod.fst = [r"A"] := by
  obtain ⟨out, hout⟩ : ∃ out, scale_font
      { cff := none, glyf := some [], hmtx := [(r"A", 600, 50)], vmtx := none,
        head := ⟨0, 0, 0, 0⟩, hhea := ⟨0, 0, 0, 0, 0, 0, 0⟩, os2 := none,
        vhea := none, post := none, kern := some [some [((r"A", r"V"), -80)]],
        gpos := none, name := none }
      (mkRat 3 2) none none = Except.ok out := ⟨_, rfl⟩
  exact ⟨out, hout, (C10_key_sets_preserved _ _ _ hout).1⟩

/-! ## Claim C4 — null tolerance of the GPOS scaler -/

/-- C4: the GPOS subtable scaler is total on subtables with null pair-set
slots and null anchor slots (no error is possible): every null slot is
left null in the output, and every non-null entry is scaled in place.
Stated for pair sets and for base, mark, mark-to-mark and
ligature-component anchors. -/
theorem C4_gpos_nulls_tolerated (s : ℚ) (st : GposSubtable) :
    ((scale_gpos_subtable s st).PairSet
      = st.PairSet.map (List.map (scaleOptPairSet s))) ∧
    (∀ l : List (Option PairSet), st.PairSet = some l →
      ∃ l', (scale_gpos_subtable s st).PairSet = some l' ∧ l'.length = l.length ∧
        (∀ i : ℕ, l[i]? = some none → l'[i]? = some none) ∧
        (∀ (i : ℕ) (ps : PairSet), l[i]? = some (some ps) →
          l'[i]? = some (some (scalePairSet s ps)))) ∧
    (∀ b : BaseArray, st.BaseArray = some b →
      ∃ b', (scale_gpos_subtable s st).BaseArray = some b' ∧
        ∀ (i : ℕ) (r : BaseRecord), b.BaseRecord[i]? = some r →
          ∃ r' : BaseRecord, b'.BaseRecord[i]? = some r' ∧
            (∀ j : ℕ, r.BaseAnchor[j]? = some none → r'.BaseAnchor[j]? = some none) ∧
            (∀ (j : ℕ) (a : Anchor), r.BaseAnchor[j]? = some (some a) →
              r'.BaseAnchor[j]? = some (some (scale_anchor s a)))) ∧
    (∀ m : MarkArray, st.MarkArray = some m →
      ∃ m', (scale_gpos_subtable s st).MarkArray = some m' ∧
        ∀ (i : ℕ) (r : MarkRecord), m.MarkRecord[i]? = some r →
          ∃ r' : MarkRecord, m'.MarkRecord[i]? = some r' ∧
            (r.MarkAnchor = none → r'.MarkAnchor = none) ∧
            (∀ a : Anchor, r.MarkAnchor = some a →
              r'.MarkAnchor = some (scale_anchor s a))) ∧
    (∀ m : Mark2Array, st.Mark2Array = some m →
      ∃ m', (scale_gpos_subtable s st).Mark2Array = some m' ∧
        ∀ (i : ℕ) (r : Mark2Record), m.Mark2Record[i]? = some r →
          ∃ r' : Mark2Record, m'.Mark2Record[i]? = some r' ∧
            (∀ j : ℕ, r.Mark2Anchor[j]? = some none → r'.Mark2Anchor[j]? = some none) ∧
            (∀ (j : ℕ) (a : Anchor), r.Mark2Anchor[j]? = some (some a) →
              r'.Mark2Anchor[j]? = some (some (scale_anchor s a)))) ∧
    (∀ la : LigatureArray, st.LigatureArray = some la →
      ∃ la', (scale_gpos_subtable s st).LigatureArray = some la' ∧
        ∀ (i : ℕ) (att : LigatureAttach), la.LigatureAttach[i]? = some att →
          ∃ att' : LigatureAttach, la'.LigatureAttach[i]? = some att' ∧
            ∀ (j : ℕ) (c : ComponentRecord), att.ComponentRecord[j]? = some c →
              ∃ c' : ComponentRecord, att'.ComponentRecord[j]? = some c' ∧
                (∀ k : ℕ, c.LigatureAnchor[k]? = some none →
                  c'.LigatureAnchor[k]? = some none) ∧
                (∀ (k : ℕ) (a : Anchor), c.LigatureAnchor[k]? = some (some a) →
                  c'.LigatureAnchor[k]? = some (some (scale_anchor s a)))) := by
  refine ⟨rfl, ?_, ?_, ?_, ?_, ?_⟩
  · intro l hl
    refine ⟨l.map (scaleOptPairSet s), ?_, List.length_map l _, ?_, ?_⟩
    · show st.PairSet.map (List.map (scaleOptPairSet s)) = _
      rw [hl]
      rfl
    · intro i hi
      rw [List.getElem?_map, hi]
      rfl
    · intro i ps hi
      rw [List.getElem?_map, hi]
      rfl
  · intro b hb
    refine ⟨scaleBaseArray s b, ?_, ?_⟩
    · show st.BaseArray.map (scaleBaseArray s) = _
      rw [hb]
      rfl
    · intro i r hr
      refine ⟨scaleBaseRecord s r, ?_, ?_, ?_⟩
      · show (b.BaseRecord.map (scaleBaseRecord s))[i]? = _
        rw [List.getElem?_map, hr]
        rfl
      · intro j hj
        show (r.BaseAnchor.map (scaleOptAnchor s))[j]? = _
        rw [List.getElem?_map, hj]
        rfl
      · intro j a hj
        show (r.BaseAnchor.map (scaleOptAnchor s))[j]? = _
        rw [List.getElem?_map, hj]
        rfl
  · intro m hm
    refine ⟨scaleMarkArray s m, ?_, ?_⟩
    · show st.MarkArray.map (scaleMarkArray s) = _
      rw [hm]
      rfl
    · intro i r hr
      refine ⟨scaleMarkRecord s r, ?_, ?_, ?_⟩
      · show (m.MarkRecord.map (scaleMarkRecord s))[i]? = _
        rw [List.getElem?_map, hr]
        rfl
      · intro hj
        show scaleOptAnchor s r.MarkAnchor = none
        rw [hj]
        rfl
      · intro a hj
        show scaleOptAnchor s r.MarkAnchor = _
        rw [hj]
        rfl
  · intro m hm
    refine ⟨scaleMark2Array s m, ?_, ?_⟩
    · show st.Mark2Array.map (scaleMark2Array s) = _
      rw [hm]
      rfl
    · intro i r hr
      refine ⟨scaleMark2Record s r, ?_, ?_, ?_⟩
      · show (m.Mark2Record.map (scaleMark2Record s))[i]? = _
        rw [List.getElem?_map, hr]
        rfl
      · intro j hj
        show (r.Mark2Anchor.map (scaleOptAnchor s))[j]? = _
        rw [List.getElem?_map, hj]
        rfl
      · intro j a hj
        show (r.Mark2Anchor.map (scaleOptAnchor s))[j]? = _
        rw [List.getElem?_map, hj]
        rfl
  · intro la hla
    refine ⟨scaleLigatureArray s la, ?_, ?_⟩
    · show st.LigatureArray.map (scaleLigatureArray s) = _
      rw [hla]
      rfl
    · intro i att hatt
      refine ⟨scaleLigatureAttach s att, ?_, ?_⟩
      · show (la.LigatureAttach.map (scaleLigatureAttach s))[i]? = _
        rw [List.getElem?_map, hatt]
        rfl
      · intro j c hcj
        refine ⟨scaleComponentRecord s c, ?_, ?_, ?_⟩
        · show (att.ComponentRecord.map (scaleComponentRecord s))[j]? = _
          rw [List.getElem?_map, hcj]
          rfl
        · intro k hk
          show (c.LigatureAnchor.map (scaleOptAnchor s))[k]? = _
          rw [List.getElem?_map, hk]
          rfl
        · intro k a hk
          show (c.LigatureAnchor.map (scaleOptAnchor s))[k]? = _
          rw [List.getElem?_map, hk]
          rfl

/-- Witness for C4: a subtable with a null pair-set slot and a null mark
anchor keeps both null and scales the non-null pair set. -/
theorem C4_gpos_nulls_tolerated_witness :
    ∃ l', (scale_gpos_subtable (mkRat 3 2)
        { SinglePos := none, PairSet := some [none, some ⟨[]⟩],
          Class1Record := none, BaseArray := none,
          MarkArray := some ⟨[⟨none⟩]⟩, Mark2Array := none,
          LigatureArray := none }).PairSet = some l' ∧
      l'[0]? = some none ∧ l'[1]? = some (some (scalePairSet (mkRat 3 2) ⟨[]⟩)) := by
  obtain ⟨l', h1, _, h3, h4⟩ :=
    (C4_gpos_nulls_tolerated (mkRat 3 2)
      { SinglePos := none, PairSet := some [none, some ⟨[]⟩],
        Class1Record := none, BaseArray := none,
        MarkArray := some ⟨[⟨none⟩]⟩, Mark2Array := none,
        LigatureArray := none }).2.1 [none, some ⟨[]⟩] rfl
  exact ⟨l', h1, h3 0 rfl, h4 1 ⟨[]⟩ rfl⟩

/-! ## Claim C6 — batch mode isolates failures -/

theorem processBatch_fst {α β ε : Type} (step : α → Except ε β) (l : List α) :
    (processBatch step l).1 = l.filterMap (fun a => (step a).toOption) := by
  induction l with
  | nil => rfl
  | cons a t ih =>
    unfold processBatch
    cases h : step a with
    | ok b => simp [h, ih, Except.toOption, List.filterMap_cons]
    | error e => simp [h, ih, Except.toOption, List.filterMap_cons]

theorem processBatch_snd {α β ε : Type} (step : α → Except ε β) (l : List α) :
    (processBatch step l).2 = l.filterMap (fun a =>
      match step a with
      | Except.error e => some (a, e)
      | Except.ok _ => none) := by
  induction l with
  | nil => rfl
  | cons a t ih =>
    unfold processBatch
    cases h : step a with
    | ok b => simp [h, ih, List.filterMap_cons]
    | error e => simp [h, ih, List.filterMap_cons]

theorem length_filterMap_isSome {α β : Type} (f : α → Option β) (l : List α)
    (hok : ∀ g ∈ l, (f g).isSome) : (l.filterMap f).length = l.length := by
  induction l with
  | nil => rfl
  | cons a t ih =>
    obtain ⟨b, hb⟩ := Option.isSome_iff_exists.mp (hok a (List.mem_cons_self a t))
    rw [List.filterMap_cons_some hb, List.length_cons,
      ih (fun g hg => hok g (List.mem_cons_of_mem a hg))]
    rfl

theorem filterMap_nil_of_none {α β : Type} (f : α → Option β) (l : List α)
    (h : ∀ g ∈ l, f g = none) : l.filterMap f = [] := by
  induction l with
  | nil => rfl
  | cons a t ih =>
    rw [List.filterMap_cons_none (h a (List.mem_cons_self a t))]
    exact ih (fun g hg => h g (List.mem_cons_of_mem a hg))

/-- C6: when exactly one file of a batch fails (the step succeeds on
every other file), the driver still produces the output of every other file, in
order, and reports exactly the one failure. -/
theorem C6_batch_failures_isolated {α β ε : Type} (step : α → Except ε β)
    (pre post : List α) (bad : α) (e : ε)
    (hbad : step bad = Except.error e)
    (hok : ∀ g ∈ pre ++ post, (step g).toOption.isSome) :
    (processBatch step (pre ++ bad :: post)).1
        = (pre ++ post).filterMap (fun a => (step a).toOption) ∧
    ((processBatch step (pre ++ bad :: post)).1).length
        = pre.length + post.length ∧
    (processBatch step (pre ++ bad :: post)).2 = [(bad, e)] := by
  have hpre : ∀ g ∈ pre, (step g).toOption.isSome :=
    fun g hg => hok g (List.mem_append_left post hg)
  have hpost : ∀ g ∈ post, (step g).toOption.isSome :=
    fun g hg => hok g (List.mem_append_right pre hg)
  have hbadopt : (step bad).toOption = none := by
    rw [hbad]
    rfl
  have herr : ∀ g ∈ pre ++ post,
      (fun a => match step a with
        | Except.error e => some (a, e)
        | Except.ok _ => none) g = (none : Option (α × ε)) := by
    intro g hg
    obtain ⟨b, hb⟩ := Option.isSome_iff_exists.mp (hok g hg)
    cases hs2 : step g with
    | ok c => dsimp only; rw [hs2]
    | error e2 =>
      rw [hs2] at hb
      simp [Except.toOption] at hb
  refine ⟨?_, ?_, ?_⟩
  · rw [processBatch_fst, List.filterMap_append, List.filterMap_append,
      @List.filterMap_cons_none _ _ (fun a => (step a).toOption) bad post hbadopt]
  · rw [processBatch_fst, List.filterMap_append,
      @List.filterMap_cons_none _ _ (fun a => (step a).toOption) bad post hbadopt,
      List.length_append,
      length_filterMap_isSome _ pre hpre, length_filterMap_isSome _ post hpost]
  · rw [processBatch_snd, List.filterMap_append,
      @List.filterMap_cons_some _ _ (fun a =>
        match step a with
        | Except.error e => some (a, e)
        | Except.ok _ => none) bad post (bad, e) (by dsimp only; rw [hbad]),
      filterMap_nil_of_none _ pre (fun g hg => herr g (List.mem_append_left post hg)),
      filterMap_nil_of_none _ post (fun g hg => herr g (List.mem_append_right pre hg))]
    rfl

/-- Witness for C6: three fonts, the middle one having no outline tables;
the other two produce output and exactly one failure is reported. -/
theorem C6_batch_failures_isolated_witness :
    ((processBatch (fun f => scale_font f (mkRat 108 100) none none)
      [{ cff := none, glyf := some [], hmtx := [(r"A", 1, 1)], vmtx := none,
         head := ⟨0, 0, 0, 0⟩, hhea := ⟨0, 0, 0, 0, 0, 0, 0⟩, os2 := none,
         vhea := none, post := none, kern := none, gpos := none, name := none },
       { cff := none, glyf := none, hmtx := [], vmtx := none,
         head := ⟨0, 0, 0, 0⟩, hhea := ⟨0, 0, 0, 0, 0, 0, 0⟩, os2 := none,
         vhea := none, post := none, kern := none, gpos := none, name := none },
       { cff := none, glyf := some [], hmtx := [(r"B", 2, 2)], vmtx := none,
         head := ⟨0, 0, 0, 0⟩, hhea := ⟨0, 0, 0, 0, 0, 0, 0⟩, os2 := none,
         vhea := none, post := none, kern := none, gpos := none, name := none }]).1.length
      = 2) ∧
    ((processBatch (fun f => scale_font f (mkRat 108 100) none none)
      [{ cff := none, glyf := some [], hmtx := [(r"A", 1, 1)], vmtx := none,
         head := ⟨0, 0, 0, 0⟩, hhea := ⟨0, 0, 0, 0, 0, 0, 0⟩, os2 := none,
         vhea := none, post := none, kern := none, gpos := none, name := none },
       { cff := none, glyf := none, hmtx := [], vmtx := none,
         head := ⟨0, 0, 0, 0⟩, hhea := ⟨0, 0, 0, 0, 0, 0, 0⟩, os2 := none,
         vhea := none, post := none, kern := none, gpos := none, name := none },
       { cff := none, glyf := some [], hmtx := [(r"B", 2, 2)], vmtx := none,
         head := ⟨0, 0, 0, 0⟩, hhea := ⟨0, 0, 0, 0, 0, 0, 0⟩, os2 := none,
         vhea := none, post := none, kern := none, gpos := none, name := none }]).2
      = [({ cff := none, glyf := none, hmtx := [], vmtx := none,
            head := ⟨0, 0, 0, 0⟩, hhea := ⟨0, 0, 0, 0, 0, 0, 0⟩, os2 := none,
            vhea := none, post := none, kern := none, gpos := none, name := none },
          ScaleError.missingGlyfTable)]) := by
  have h := C6_batch_failures_isolated
    (fun f => scale_font f (mkRat 108 100) none none)
    [{ cff := none, glyf := some [], hmtx := [(r"A", 1, 1)], vmtx := none,
       head := ⟨0, 0, 0, 0⟩, hhea := ⟨0, 0, 0, 0, 0, 0, 0⟩, os2 := none,
       vhea := none, post := none, kern := none, gpos := none, name := none }]
    [{ cff := none, glyf := some [], hmtx := [(r"B", 2, 2)], vmtx := none,
       head := ⟨0, 0, 0, 0⟩, hhea := ⟨0, 0, 0, 0, 0, 0, 0⟩, os2 := none,
       vhea := none, post := none, kern := none, gpos := none, name := none }]
    { cff := none, glyf := none, hmtx := [], vmtx := none,
      head := ⟨0, 0, 0, 0⟩, hhea := ⟨0, 0, 0, 0, 0, 0, 0⟩, os2 := none,
      vhea := none, post := none, kern := none, gpos := none, name := none }
    ScaleError.missingGlyfTable rfl (by decide)
  exact ⟨h.2.1, h.2.2⟩

/-! ## Claim C9 — family renaming of naming records -/

/-- C9: an undecodable record is skipped untouched; a record containing
the old family name gets every occurrence replaced; a record containing
only the space-stripped form gets that form replaced by the space-stripped
new name; a record containing neither is untouched.  The two examples of
the claim compute as stated. -/
theorem C9_rename_records (old new : List Char) (r : NameRecord) :
    (r.rawText = none → renameRecord old new r = r) ∧
    (∀ t, r.rawText = some t → containsSeq old t = true →
      renameRecord old new r = { r with rawText := some (replaceAll old new t) }) ∧
    (∀ t, r.rawText = some t → containsSeq old t = false →
      containsSeq (replaceAll [' '] [] old) t = true →
      renameRecord old new r
        = { r with rawText := some (replaceAll (replaceAll [' '] [] old)
            (replaceAll [' '] [] new) t) }) ∧
    (∀ t, r.rawText = some t → containsSeq old t = false →
      containsSeq (replaceAll [' '] [] old) t = false →
      renameRecord old new r = r) ∧
    renamedText r"Reddit Mono".toList r"RedditRadon Mono".toList
        r"Reddit Mono Regular".toList = r"RedditRadon Mono Regular".toList ∧
    renamedText r"Reddit Mono".toList r"RedditRadon Mono".toList
        r"RedditMono-Regular".toList = r"RedditRadonMono-Regular".toList := by
  refine ⟨?_, ?_, ?_, ?_, by decide, by decide⟩
  · intro h
    unfold renameRecord
    rw [h]
  · intro t ht hc
    unfold renameRecord
    rw [ht]
    dsimp only
    unfold renamedText
    rw [if_pos hc]
  · intro t ht hc hn
    unfold renameRecord
    rw [ht]
    dsimp only
    unfold renamedText
    rw [if_neg (by simp [hc]), if_pos hn]
  · intro t ht hc hn
    unfold renameRecord
    rw [ht]
    dsimp only
    unfold renamedText
    rw [if_neg (by simp [hc]), if_neg (by simp [hn]), ← ht]

/-- Witness for C9: a record whose text does not decode passes through
the renamer unchanged. -/
theorem C9_rename_records_witness :
    renameRecord r"Reddit Mono".toList r"RedditRadon Mono".toList
        ⟨6, 3, 1, 1033, none⟩ = ⟨6, 3, 1, 1033, none⟩ :=
  (C9_rename_records r"Reddit Mono".toList r"RedditRadon Mono".toList
    ⟨6, 3, 1, 1033, none⟩).1 rfl

end ScaleFont
